import Mathlib

/-!
Verification development for the send_buddy climbing-partner platform.

The definitions below are a shallow embedding of the matching and overlap
subsystems of the repository:
  - backend/users/models.py        (User, DisciplineProfile, Block, visible_to)
  - backend/friendships/models.py  (Friendship.get_friends)
  - backend/matching/services.py   (MatchingService)
  - backend/overlaps/services.py   (OverlapEngine)
Dates are modelled as integers (days); Django querysets become lists; the
database becomes an explicit `World` record that operations read and update.
-/

namespace SendBuddy

/-- Risk tolerance choices (users/models.py `RiskTolerance`). -/
inductive RiskLevel
| conservative
| balanced
| aggressive
deriving DecidableEq, Repr

/-- Per-user, per-discipline climbing profile
(users/models.py `DisciplineProfile`): the normalized comfortable grade
range on the common 0-100 integer scale. -/
structure DisciplineProfile where
  discipline : String
  comfortable_grade_min_score : Nat
  comfortable_grade_max_score : Nat
deriving DecidableEq, Repr

/-- User record (users/models.py `User`), restricted to the fields read by the
matching and overlap subsystems.  `home_lat` / `home_lng` are the
coordinate fields actually declared on the model (DecimalField, nullable);
they are modelled as optional rationals.  All `User` rows are authenticated
users; an anonymous viewer is modelled as `none` where an
`Option User` is taken. -/
structure User where
  id : Nat
  profile_visible : Bool
  email_verified : Bool
  risk_tolerance : RiskLevel
  disciplines : List DisciplineProfile
  home_lat : Option ℚ
  home_lng : Option ℚ
deriving DecidableEq, Repr

/-- One availability row of a trip (trips/models.py `TripAvailability`):
a calendar date plus a time-of-day block. -/
structure Availability where
  date : Int
  time_block : String
deriving DecidableEq, Repr

/-- Trip record (trips/models.py `Trip`), restricted to the fields read by
matching and overlap detection.  `destination` is the foreign key
(identity of the destination), `preferred_crags` the set of crag ids.
`grade_system`, `min_grade`, `max_grade` are blank-able CharFields: the
empty string plays the role of an absent value, as in the Python code
(truthiness of the string). -/
structure Trip where
  id : Nat
  userId : Nat
  destination : Nat
  start_date : Int
  end_date : Int
  preferred_disciplines : List String
  grade_system : String
  min_grade : String
  max_grade : String
  preferred_crags : List Nat
  is_active : Bool
  visibility_status : String
  availability : List Availability
deriving DecidableEq, Repr

/-- Directed block edge (users/models.py `Block`), by user ids. -/
structure Block where
  blocker : Nat
  blocked : Nat
deriving DecidableEq, Repr

/-- Friendship edge (friendships/models.py `Friendship`), by user ids. -/
structure Friendship where
  requester : Nat
  addressee : Nat
  status : String
deriving DecidableEq, Repr

/-- Modelled from the spec: the persisted `TripOverlap` record
(`overlaps/models.py` is not part of the provided sources; only its
serializers, admin declarations and the `OverlapEngine` service refer to
it).  Fields follow the Overlap data model of the spec: both users, both
trips, the shared destination, the intersection date range and its length,
the 0-100 relevance score, and the per-user dismissal flags.  `trip1` and
`trip2` hold trip ids, `user1` and `user2` user ids. -/
structure Overlap where
  id : Nat
  user1 : Nat
  user2 : Nat
  trip1 : Nat
  trip2 : Nat
  overlap_destination : Nat
  overlap_start_date : Int
  overlap_end_date : Int
  overlap_days : Int
  overlap_score : Int
  user1_dismissed : Bool
  user2_dismissed : Bool
deriving DecidableEq, Repr

/-- The database state read and written by the two subsystems. -/
structure World where
  users : List User
  trips : List Trip
  blocks : List Block
  friendships : List Friendship
  overlaps : List Overlap
deriving DecidableEq, Repr

/-- users/models.py `UserQuerySet.visible_to`: users visible to a viewer.
An unauthenticated viewer (`none`) only gets the profile-visibility
filter; an authenticated viewer additionally excludes every user that is
blocked by the viewer or has blocked the viewer. -/
def visible_to (w : World) (viewer : Option User) : List User :=
  match viewer with
  | none => w.users.filter (fun u => u.profile_visible)
  | some v =>
    (w.users.filter (fun u =>
      ! w.blocks.any (fun b =>
        (b.blocker == v.id && b.blocked == u.id) ||
        (b.blocker == u.id && b.blocked == v.id)))).filter
      (fun u => u.profile_visible)

/-- friendships/models.py `Friendship.get_friends`: users visible to `user`
that are joined to `user` by an accepted friendship in either direction. -/
def get_friends (w : World) (user : User) : List User :=
  (visible_to w (some user)).filter (fun u =>
    w.friendships.any (fun f =>
      (f.requester == user.id && f.addressee == u.id && f.status == "accepted") ||
      (f.requester == u.id && f.addressee == user.id && f.status == "accepted")))

/-! ## OverlapEngine scoring constants (overlaps/services.py) -/

def MAX_DAYS_SCORE : Int := 30
def POINTS_PER_DAY : Int := 6
def DISCIPLINE_SCORE : Nat := 25
def GRADE_SCORE : Int := 20
def FRIENDSHIP_SCORE : Int := 15
def CRAG_BONUS : Int := 10
def CROSS_PATH_DISTANCE_KM : ℚ := 100

/-- Component 1 of `OverlapEngine.calculate_overlap_score`: days score.
`overlap_days` is the signed length of the intersection of the two date
ranges; the code applies `min` with the 30-point cap but no lower guard. -/
def overlapDaysScore (trip1 trip2 : Trip) : Int :=
  let overlap_start := max trip1.start_date trip2.start_date
  let overlap_end := min trip1.end_date trip2.end_date
  let overlap_days := overlap_end - overlap_start + 1
  min (overlap_days * POINTS_PER_DAY) MAX_DAYS_SCORE

/-- Component 2 of `OverlapEngine.calculate_overlap_score`: discipline
compatibility, `int(|inter| / |union| * 25)` over the two preferred
discipline sets, 0 when either list is empty. -/
def overlapDisciplineScore (trip1 trip2 : Trip) : Nat :=
  if trip1.preferred_disciplines ≠ [] ∧ trip2.preferred_disciplines ≠ [] then
    let disciplines1 := trip1.preferred_disciplines.toFinset
    let disciplines2 := trip2.preferred_disciplines.toFinset
    if disciplines1.Nonempty ∧ disciplines2.Nonempty then
      let inter := disciplines1 ∩ disciplines2
      let uni := disciplines1 ∪ disciplines2
      if uni.Nonempty then inter.card * DISCIPLINE_SCORE / uni.card else 0
    else 0
  else 0

/-- Component 3 of `OverlapEngine.calculate_overlap_score`: grade
compatibility.  Requires all four grade strings to be non-blank and the
two grade systems equal; grade ranges are compared as strings; a
non-disjoint pair of ranges earns the flat 20 points. -/
def overlapGradeScore (trip1 trip2 : Trip) : Int :=
  if trip1.min_grade ≠ "" ∧ trip1.max_grade ≠ "" ∧
     trip2.min_grade ≠ "" ∧ trip2.max_grade ≠ "" ∧
     trip1.grade_system = trip2.grade_system then
    if ¬ (trip1.max_grade < trip2.min_grade ∨ trip2.max_grade < trip1.min_grade) then
      GRADE_SCORE
    else 0
  else 0

/-- Component 5 of `OverlapEngine.calculate_overlap_score`: crag bonus when
both trips name at least one preferred crag and the sets intersect. -/
def overlapCragScore (trip1 trip2 : Trip) : Int :=
  if trip1.preferred_crags ≠ [] ∧ trip2.preferred_crags ≠ [] then
    if (trip1.preferred_crags.toFinset ∩ trip2.preferred_crags.toFinset).Nonempty then
      CRAG_BONUS
    else 0
  else 0

/-- overlaps/services.py `OverlapEngine.calculate_overlap_score`: sum of the
days, discipline, grade, friendship and crag components, then `min` with
100. -/
def calculate_overlap_score (trip1 trip2 : Trip) (are_friends : Bool) : Int :=
  let score := overlapDaysScore trip1 trip2
  let score := score + (overlapDisciplineScore trip1 trip2 : Int)
  let score := score + overlapGradeScore trip1 trip2
  let score := score + (if are_friends then FRIENDSHIP_SCORE else 0)
  let score := score + overlapCragScore trip1 trip2
  min score 100

/-! ## MatchingService (matching/services.py) -/

/-- An ephemeral match result entry as assembled by
`MatchingService.get_matches` (user, trip, score and overlap date
details; the human-readable reason strings are not modelled). -/
structure MatchResult where
  user : User
  trip : Trip
  match_score : Int
  overlap_dates : Option (Int × Int × Int)
deriving DecidableEq, Repr

/-- matching/services.py `MatchingService._get_candidates`: users visible to
the viewer that are email-verified, own at least one active trip whose
date range intersects the date range of the viewer trip, excluding the
viewer. -/
def get_candidates (w : World) (user : User) (trip : Trip) : List User :=
  ((visible_to w (some user)).filter (fun c =>
    w.trips.any (fun t =>
      t.userId == c.id && t.is_active &&
      decide (t.start_date ≤ trip.end_date) &&
      decide (trip.start_date ≤ t.end_date)) &&
    c.email_verified)).filter (fun c => c.id != user.id)

/-- matching/services.py `MatchingService._get_candidate_trip`: the first
active trip of the candidate at the same destination whose date range
intersects the viewer trip. -/
def get_candidate_trip (w : World) (trip : Trip) (candidate : User) : Option Trip :=
  (w.trips.filter (fun t =>
    t.userId == candidate.id && t.is_active &&
    decide (t.start_date ≤ trip.end_date) &&
    decide (trip.start_date ≤ t.end_date) &&
    t.destination == trip.destination)).head?

/-- matching/services.py `MatchingService._score_location`: 0 for different
destinations; for the same destination, 25 when either trip has no crag
preference, 30 when the crag sets intersect, 20 otherwise. -/
def score_location (trip candidate_trip : Trip) : Int :=
  if trip.destination ≠ candidate_trip.destination then 0
  else
    let user_crags := trip.preferred_crags.toFinset
    let match_crags := candidate_trip.preferred_crags.toFinset
    if user_crags = ∅ ∨ match_crags = ∅ then 25
    else if (user_crags ∩ match_crags).Nonempty then 30
    else 20

/-- matching/services.py `MatchingService._score_date_overlap`: the score
and the overlap details (start, end, days); `(0, none)` when the two date
ranges are disjoint. -/
def score_date_overlap (trip candidate_trip : Trip) : Int × Option (Int × Int × Int) :=
  let overlap_start := max trip.start_date candidate_trip.start_date
  let overlap_end := min trip.end_date candidate_trip.end_date
  if overlap_start > overlap_end then (0, none)
  else
    let overlap_days := overlap_end - overlap_start + 1
    (min 20 (overlap_days * 4), some (overlap_start, overlap_end, overlap_days))

/-- matching/services.py `MatchingService._score_discipline`: 0 when the two
trips share no preferred discipline; 20 plus the shared list when the
shared trip disciplines also appear in both user profiles; 5 plus the
trip-shared list otherwise. -/
def score_discipline (user candidate : User) (trip candidate_trip : Trip) :
    Int × List String :=
  let trip_disciplines :=
    trip.preferred_disciplines.dedup.filter
      (fun d => candidate_trip.preferred_disciplines.contains d)
  if trip_disciplines = [] then (0, [])
  else
    let my_disciplines := user.disciplines.map (fun d => d.discipline)
    let their_disciplines := candidate.disciplines.map (fun d => d.discipline)
    let shared := trip_disciplines.filter
      (fun d => my_disciplines.contains d && their_disciplines.contains d)
    if shared ≠ [] then (20, shared) else (5, trip_disciplines)

/-- Django `user.disciplines.get(discipline=d)`: succeeds exactly when the
user has a unique profile for the discipline. -/
def getProfile (u : User) (d : String) : Option DisciplineProfile :=
  match u.disciplines.filter (fun p => p.discipline = d) with
  | [p] => some p
  | _ => none

/-- matching/services.py `MatchingService._score_grade_compatibility`: for
the first shared discipline, the truncated value
`int(15 * overlap_range / avg_range)` over the two comfortable grade
ranges (equal to `30 * overlap_range / (width1 + width2)` in integer
division, 0 when both widths are 0); 0 when the ranges are disjoint, when
either profile lookup fails, or when no discipline is shared. -/
def score_grade_compatibility (user candidate : User) (shared : List String) : Int :=
  match shared with
  | [] => 0
  | d :: _ =>
    match getProfile user d, getProfile candidate d with
    | some mp, some tp =>
      let overlap_start := max mp.comfortable_grade_min_score tp.comfortable_grade_min_score
      let overlap_end := min mp.comfortable_grade_max_score tp.comfortable_grade_max_score
      if overlap_start > overlap_end then 0
      else
        let overlap_range := overlap_end - overlap_start
        let widths := (mp.comfortable_grade_max_score - mp.comfortable_grade_min_score) +
          (tp.comfortable_grade_max_score - tp.comfortable_grade_min_score)
        ((30 * overlap_range / widths : Nat) : Int)
    | _, _ => 0

/-- matching/services.py `MatchingService._score_risk_tolerance` ordinal
mapping of the risk tolerance choices. -/
def RISK_SCORES : RiskLevel → Int
  | .conservative => 0
  | .balanced => 1
  | .aggressive => 2

/-- matching/services.py `MatchingService._score_risk_tolerance`: +10 for
equal tolerance, +3 for adjacent, -10 otherwise. -/
def score_risk_tolerance (user candidate : User) : Int :=
  let diff := (RISK_SCORES user.risk_tolerance - RISK_SCORES candidate.risk_tolerance).natAbs
  if diff = 0 then 10
  else if diff = 1 then 3
  else -10

/-- matching/services.py `MatchingService._score_availability`: number of
exactly matching (date, time block) pairs, rest blocks excluded, capped
at 5. -/
def score_availability (trip candidate_trip : Trip) : Int :=
  let my_avail :=
    ((trip.availability.filter (fun a => a.time_block ≠ "rest")).map
      (fun a => (a.date, a.time_block))).toFinset
  let their_avail :=
    ((candidate_trip.availability.filter (fun a => a.time_block ≠ "rest")).map
      (fun a => (a.date, a.time_block))).toFinset
  min 5 ((my_avail ∩ their_avail).card : Int)

/-- matching/services.py `MatchingService._calculate_match_score`: the sum
of the six components (location, date overlap, discipline, grade, risk,
availability), plus the overlap date details. -/
def calculate_match_score (user : User) (trip : Trip) (candidate : User)
    (candidate_trip : Trip) : Int × Option (Int × Int × Int) :=
  let location_score := score_location trip candidate_trip
  let date_part := score_date_overlap trip candidate_trip
  let discipline_part := score_discipline user candidate trip candidate_trip
  let grade_score := score_grade_compatibility user candidate discipline_part.2
  let risk_score := score_risk_tolerance user candidate
  let avail_score := score_availability trip candidate_trip
  (location_score + date_part.1 + discipline_part.1 + grade_score + risk_score + avail_score,
   date_part.2)

/-- Insertion step of the descending sort used by `get_matches`
(`scored_matches.sort(key=..., reverse=True)`): strictly greater scores
move forward, so equal scores keep their relative order as with the
stable Python sort. -/
def insertDesc (r : MatchResult) : List MatchResult → List MatchResult
  | [] => [r]
  | x :: xs => if x.match_score < r.match_score then r :: x :: xs else x :: insertDesc r xs

/-- Stable insertion sort by descending `match_score`. -/
def sortDesc : List MatchResult → List MatchResult
  | [] => []
  | x :: xs => insertDesc x (sortDesc xs)

/-- The scoring loop of `MatchingService.get_matches`: each candidate with
a qualifying trip is scored, and entries strictly above the minimum
threshold 20 are kept. -/
def scored_matches (w : World) (user : User) (trip : Trip) : List MatchResult :=
  (get_candidates w user trip).filterMap (fun candidate =>
    match get_candidate_trip w trip candidate with
    | none => none
    | some candidate_trip =>
      let result := calculate_match_score user trip candidate candidate_trip
      if result.1 > 20 then
        some ⟨candidate, candidate_trip, result.1, result.2⟩
      else none)

/-- matching/services.py `MatchingService.get_matches`: score every
candidate with a qualifying trip, keep scores strictly above the minimum
threshold 20, sort descending by score and truncate to `limit`. -/
def get_matches (w : World) (user : User) (trip : Trip) (limit : Nat) :
    List MatchResult :=
  (sortDesc (scored_matches w user trip)).take limit

/-! ## OverlapEngine detection and lifecycle (overlaps/services.py) -/

/-- The existence check run before every overlap insert:
`TripOverlap.objects.filter(Q(trip1=a, trip2=b) | Q(trip1=b, trip2=a)).exists()`. -/
def existsPair (overlaps : List Overlap) (t1 t2 : Nat) : Bool :=
  overlaps.any (fun o =>
    (o.trip1 == t1 && o.trip2 == t2) || (o.trip1 == t2 && o.trip2 == t1))

/-- The `TripOverlap.objects.create(...)` record built by both detection
entry points for a qualifying pair (ids are assigned by the database and
are irrelevant to detection; they are modelled as 0). -/
def mkOverlap (user : User) (trip other_trip : Trip) (are_friends : Bool) : Overlap :=
  let overlap_start := max trip.start_date other_trip.start_date
  let overlap_end := min trip.end_date other_trip.end_date
  { id := 0
    user1 := user.id
    user2 := other_trip.userId
    trip1 := trip.id
    trip2 := other_trip.id
    overlap_destination := trip.destination
    overlap_start_date := overlap_start
    overlap_end_date := overlap_end
    overlap_days := overlap_end - overlap_start + 1
    overlap_score := calculate_overlap_score trip other_trip are_friends
    user1_dismissed := false
    user2_dismissed := false }

/-- One iteration of the detection loop shared by
`detect_overlaps_for_user` and `detect_overlaps_for_trip`: skip the pair
when an overlap already exists in either orientation, otherwise insert a
new record.  The accumulator carries the overlap table and the list of
newly created records. -/
def detectStep (user : User) (friend_ids : List Nat) (trip : Trip)
    (acc : List Overlap × List Overlap) (other_trip : Trip) :
    List Overlap × List Overlap :=
  if existsPair acc.1 trip.id other_trip.id then acc
  else
    let o := mkOverlap user trip other_trip (friend_ids.contains other_trip.userId)
    (acc.1 ++ [o], acc.2 ++ [o])

/-- The eligible own trips of `detect_overlaps_for_user`: upcoming, active,
and with a visible status. -/
def userTripsQuery (w : World) (user : User) (today : Int) : List Trip :=
  w.trips.filter (fun t =>
    t.userId == user.id && decide (today ≤ t.end_date) && t.is_active &&
    (t.visibility_status == "looking_for_partners" ||
     t.visibility_status == "open_to_friends"))

/-- The candidate pool of `detect_overlaps_for_user`: with friends, the
trips of visible users that are either friend trips open to friends or
looking for partners, or any looking-for-partners trip; without friends,
only looking-for-partners trips of visible users.  The viewer is
excluded. -/
def otherTripsForUserQuery (w : World) (user : User) (friend_ids : List Nat)
    (today : Int) : List Trip :=
  let visible_ids := ((visible_to w (some user)).filter
    (fun u => u.id != user.id)).map (fun u => u.id)
  if friend_ids ≠ [] then
    w.trips.filter (fun t =>
      ((friend_ids.contains t.userId &&
        (t.visibility_status == "open_to_friends" ||
         t.visibility_status == "looking_for_partners")) ||
       t.visibility_status == "looking_for_partners") &&
      visible_ids.contains t.userId &&
      decide (today ≤ t.end_date) && t.is_active && t.userId != user.id)
  else
    w.trips.filter (fun t =>
      visible_ids.contains t.userId &&
      t.visibility_status == "looking_for_partners" &&
      decide (today ≤ t.end_date) && t.is_active && t.userId != user.id)

/-- The per-trip refinement inside `detect_overlaps_for_user`: same
destination and intersecting dates. -/
def matchingTripsQuery (others : List Trip) (user_trip : Trip) : List Trip :=
  others.filter (fun t =>
    t.destination == user_trip.destination &&
    decide (t.start_date ≤ user_trip.end_date) &&
    decide (user_trip.start_date ≤ t.end_date))

/-- overlaps/services.py `OverlapEngine.detect_overlaps_for_user`: for each
eligible own trip, check-then-insert an overlap for every matching
candidate trip.  `user` is the (authenticated) owner; `today` the
current date.  Returns the updated world and the newly created records. -/
def detect_overlaps_for_user (w : World) (user : User) (today : Int) :
    World × List Overlap :=
  let user_trips := userTripsQuery w user today
  let friend_ids := (get_friends w user).map (fun u => u.id)
  let other_trips := otherTripsForUserQuery w user friend_ids today
  let result := user_trips.foldl
    (fun acc user_trip =>
      (matchingTripsQuery other_trips user_trip).foldl
        (detectStep user friend_ids user_trip) acc)
    (w.overlaps, [])
  ({ w with overlaps := result.1 }, result.2)

/-- The candidate pool of `detect_overlaps_for_trip`: when the trip is open
to friends and some friend is visible, friend trips with a visible
status; when the trip is looking for partners, those friend trips plus
any visible looking-for-partners trip; otherwise nothing.  All candidates
share the destination, intersect `[max(start, today), end]`, and are
active. -/
def otherTripsForTripQuery (w : World) (user : User) (trip : Trip)
    (today : Int) : List Trip :=
  let friend_ids := (get_friends w user).map (fun u => u.id)
  let visible_ids := ((visible_to w (some user)).filter
    (fun u => u.id != user.id)).map (fun u => u.id)
  let visible_friend_ids := friend_ids.filter (fun i => visible_ids.contains i)
  let min_end_date := max trip.start_date today
  if visible_friend_ids ≠ [] ∧ trip.visibility_status = "open_to_friends" then
    w.trips.filter (fun t =>
      visible_friend_ids.contains t.userId &&
      (t.visibility_status == "open_to_friends" ||
       t.visibility_status == "looking_for_partners") &&
      t.destination == trip.destination &&
      decide (t.start_date ≤ trip.end_date) &&
      decide (min_end_date ≤ t.end_date) && t.is_active)
  else if trip.visibility_status = "looking_for_partners" then
    w.trips.filter (fun t =>
      ((visible_friend_ids.contains t.userId &&
        (t.visibility_status == "open_to_friends" ||
         t.visibility_status == "looking_for_partners")) ||
       (visible_ids.contains t.userId &&
        t.visibility_status == "looking_for_partners")) &&
      t.destination == trip.destination &&
      decide (t.start_date ≤ trip.end_date) &&
      decide (min_end_date ≤ t.end_date) && t.is_active)
  else []

/-- overlaps/services.py `OverlapEngine.detect_overlaps_for_trip`: guard
inactive, fully private and past trips, then check-then-insert an overlap
for every candidate trip.  `user` is the trip owner (`trip.user`). -/
def detect_overlaps_for_trip (w : World) (user : User) (trip : Trip)
    (today : Int) : World × List Overlap :=
  if ¬ trip.is_active then (w, [])
  else if trip.visibility_status = "full_private" then (w, [])
  else if trip.end_date < today then (w, [])
  else
    let friend_ids := (get_friends w user).map (fun u => u.id)
    let other_trips := otherTripsForTripQuery w user trip today
    let result := other_trips.foldl (detectStep user friend_ids trip) (w.overlaps, [])
    ({ w with overlaps := result.1 }, result.2)

/-- overlaps/services.py `OverlapEngine.dismiss_overlap`, restricted to a
fetched record: set the dismissal flag of whichever side matches the
user, report failure and leave the record unchanged when the user is
neither party. -/
def dismiss_overlap (o : Overlap) (userId : Nat) : Bool × Overlap :=
  if o.user1 == userId then (true, { o with user1_dismissed := true })
  else if o.user2 == userId then (true, { o with user2_dismissed := true })
  else (false, o)

/-- overlaps/services.py `OverlapEngine.dismiss_overlap`, full entry point:
fetch the overlap by id (a missing id reports failure), dismiss, and save
the mutated record back. -/
def dismiss_overlap_by_id (w : World) (overlapId : Nat) (userId : Nat) :
    Bool × World :=
  match w.overlaps.find? (fun o => o.id == overlapId) with
  | none => (false, w)
  | some o =>
    let result := dismiss_overlap o userId
    if result.1 then
      (true, { w with overlaps :=
        w.overlaps.map (fun x => if x.id == overlapId then result.2 else x) })
    else (false, w)

/-- overlaps/services.py `OverlapEngine.cleanup_expired_overlaps`: delete
every overlap whose end date lies before `today - 30` and return the
count. -/
def cleanup_expired_overlaps (w : World) (today : Int) : Nat × World :=
  let cutoff_date := today - 30
  let expired := w.overlaps.filter (fun o => decide (o.overlap_end_date < cutoff_date))
  (expired.length,
   { w with overlaps :=
      w.overlaps.filter (fun o => ! decide (o.overlap_end_date < cutoff_date)) })

/-! ## Cross-path detection (overlaps/services.py `detect_cross_path`)

`detect_cross_path` reads `user.home_latitude` and `user.home_longitude`.
The `User` model declares no such attributes: its coordinate fields are
`home_lat` and `home_lng` (users/models.py lines 113-114).  Attribute
access on the user object is therefore modelled explicitly, so that the
AttributeError raised by the real code is visible as an `Except.error`. -/

/-- Python attribute lookup for the coordinate fields of a `User` object:
only the attributes that the model actually declares resolve; any other
name raises `AttributeError`. -/
def userCoordAttr (u : User) (name : String) : Except String (Option ℚ) :=
  if name = "home_lat" then Except.ok u.home_lat
  else if name = "home_lng" then Except.ok u.home_lng
  else Except.error ("AttributeError: " ++ name)

/-- overlaps/services.py `OverlapEngine.detect_cross_path`: the body begins
with `if not user.home_latitude or not user.home_longitude`, i.e. with two
attribute reads on the user object.  Whatever the rest of the function
would compute (truthiness guards, destination guard, haversine distance
against the 100 km threshold) is only reached when both reads succeed, so
it is abstracted into the continuation `rest`, applied to the two fetched
coordinates.  The intended result type is `Bool`; the error branch models
the exception propagated to the caller.  `trip` is kept in the signature
but is consumed only by the continuation. -/
def detect_cross_path (rest : Option ℚ → Option ℚ → Trip → Except String Bool)
    (user : User) (trip : Trip) : Except String Bool :=
  match userCoordAttr user "home_latitude" with
  | Except.error e => Except.error e
  | Except.ok lat =>
    match userCoordAttr user "home_longitude" with
    | Except.error e => Except.error e
    | Except.ok lng => rest lat lng trip

/-- Invariant carried through a detection run: the accumulated overlap
table is the starting table plus exactly the newly created records, and
no new record duplicates a pair already present at the start. -/
def DetectInv (base : List Overlap) (acc : List Overlap × List Overlap) : Prop :=
  acc.1 = base ++ acc.2 ∧
  ∀ o ∈ acc.2, existsPair base o.trip1 o.trip2 = false

/-! ## Concrete fixtures used by witnesses and counterexamples -/

/-- A neutral trip record all concrete trips are variations of. -/
def baseTrip : Trip :=
  { id := 0, userId := 0, destination := 1, start_date := 0, end_date := 0,
    preferred_disciplines := [], grade_system := "", min_grade := "",
    max_grade := "", preferred_crags := [], is_active := true,
    visibility_status := "looking_for_partners", availability := [] }

/-- A neutral user record all concrete users are variations of. -/
def baseUser : User :=
  { id := 0, profile_visible := true, email_verified := true,
    risk_tolerance := RiskLevel.balanced, disciplines := [],
    home_lat := none, home_lng := none }

def userA : User := { baseUser with id := 1 }

def userB : User := { baseUser with id := 2 }

/-- User with a sport profile of comfortable range [0, 1]. -/
def userP : User :=
  { baseUser with id := 10, disciplines := [⟨"sport", 0, 1⟩] }

/-- User with a sport profile of comfortable range [0, 3]. -/
def userQ : User :=
  { baseUser with id := 11, disciplines := [⟨"sport", 0, 3⟩] }

def tripA : Trip := { baseTrip with id := 101, userId := 1, end_date := 5 }

def tripB : Trip :=
  { baseTrip with id := 102, userId := 2, start_date := 3, end_date := 8 }

/-- A valid trip whose dates are disjoint from `tripA`. -/
def tripFar : Trip :=
  { baseTrip with id := 103, userId := 2, start_date := 100, end_date := 101 }

def worldAB : World :=
  { users := [userA, userB], trips := [tripA, tripB], blocks := [],
    friendships := [], overlaps := [] }

def worldBlocked : World := { worldAB with blocks := [⟨1, 2⟩] }

def ovFixture : Overlap :=
  { id := 7, user1 := 1, user2 := 2, trip1 := 101, trip2 := 102,
    overlap_destination := 1, overlap_start_date := 3, overlap_end_date := 5,
    overlap_days := 3, overlap_score := 43,
    user1_dismissed := false, user2_dismissed := false }

def ovExpired : Overlap := { ovFixture with id := 8, overlap_end_date := 0 }

def ovFresh : Overlap := { ovFixture with id := 9, overlap_end_date := 90 }

def worldCleanup : World := { worldAB with overlaps := [ovExpired, ovFresh] }

/-! # Theorems -/

theorem score_date_overlap_comm (t1 t2 : Trip) :
    score_date_overlap t1 t2 = score_date_overlap t2 t1 := by
  simp only [score_date_overlap]
  rw [max_comm t1.start_date t2.start_date, min_comm t1.end_date t2.end_date]

/-- Claim C6: the MatchScorer date-overlap component equals
`min(20, overlapDays * 4)` with
`overlapDays = max(0, min(end1, end2) - max(start1, start2) + 1)`, it is 0
for disjoint date ranges, and swapping the two trips changes neither the
overlap days nor the score. -/
theorem date_overlap_formula_zero_and_symmetric (t1 t2 : Trip) :
    (score_date_overlap t1 t2).1 =
      min 20 (max 0 (min t1.end_date t2.end_date - max t1.start_date t2.start_date + 1) * 4) ∧
    (min t1.end_date t2.end_date < max t1.start_date t2.start_date →
      (score_date_overlap t1 t2).1 = 0) ∧
    score_date_overlap t1 t2 = score_date_overlap t2 t1 := by
  refine ⟨?_, ?_, score_date_overlap_comm t1 t2⟩
  · simp only [score_date_overlap]
    split
    · next h => simp only; omega
    · next h => simp only; omega
  · intro h
    simp only [score_date_overlap]
    split
    · rfl
    · next hcontra => omega

/-- Closed instance of claim C6 at concrete trips: the disjoint pair gets
score 0, and the swapped computation agrees. -/
theorem date_overlap_witness :
    (score_date_overlap tripA tripFar).1 = 0 ∧
    score_date_overlap tripA tripFar = score_date_overlap tripFar tripA :=
  ⟨(date_overlap_formula_zero_and_symmetric tripA tripFar).2.1 (by decide),
   (date_overlap_formula_zero_and_symmetric tripA tripFar).2.2⟩

theorem overlapDaysScore_comm (t1 t2 : Trip) :
    overlapDaysScore t1 t2 = overlapDaysScore t2 t1 := by
  simp only [overlapDaysScore]
  rw [max_comm t1.start_date t2.start_date, min_comm t1.end_date t2.end_date]

theorem overlapDisciplineScore_comm (t1 t2 : Trip) :
    overlapDisciplineScore t1 t2 = overlapDisciplineScore t2 t1 := by
  simp only [overlapDisciplineScore]
  rw [Finset.inter_comm t1.preferred_disciplines.toFinset t2.preferred_disciplines.toFinset,
    Finset.union_comm t1.preferred_disciplines.toFinset t2.preferred_disciplines.toFinset]
  exact if_congr and_comm (if_congr and_comm rfl rfl) rfl

theorem overlapGradeScore_comm (t1 t2 : Trip) :
    overlapGradeScore t1 t2 = overlapGradeScore t2 t1 := by
  simp only [overlapGradeScore]
  refine if_congr ?_ (if_congr (not_congr or_comm) rfl rfl) rfl
  constructor
  · rintro ⟨a, b, c, d, e⟩; exact ⟨c, d, a, b, e.symm⟩
  · rintro ⟨a, b, c, d, e⟩; exact ⟨c, d, a, b, e.symm⟩

theorem overlapCragScore_comm (t1 t2 : Trip) :
    overlapCragScore t1 t2 = overlapCragScore t2 t1 := by
  simp only [overlapCragScore]
  rw [Finset.inter_comm t1.preferred_crags.toFinset t2.preferred_crags.toFinset]
  exact if_congr and_comm rfl rfl

/-- Claim C10: `calculate_overlap_score` is symmetric in its two trip
arguments for every value of the friendship flag, so the persisted score
of an Overlap does not depend on which detection run created it. -/
theorem calculate_overlap_score_comm (t1 t2 : Trip) (are_friends : Bool) :
    calculate_overlap_score t1 t2 are_friends =
    calculate_overlap_score t2 t1 are_friends := by
  simp only [calculate_overlap_score]
  rw [overlapDaysScore_comm t1 t2, overlapDisciplineScore_comm t1 t2,
    overlapGradeScore_comm t1 t2, overlapCragScore_comm t1 t2]

/-- Claim C8: dismissal sets the flag of whichever side matches the acting
user and reports success; a user who is neither party gets a rejected
operation and the record is untouched.  The hypothesis records the data
model invariant that the two parties of an overlap are distinct users. -/
theorem dismiss_overlap_spec (o : Overlap) (u : Nat) (hdistinct : o.user1 ≠ o.user2) :
    (o.user1 = u →
      dismiss_overlap o u = (true, { o with user1_dismissed := true })) ∧
    (o.user2 = u →
      dismiss_overlap o u = (true, { o with user2_dismissed := true })) ∧
    (o.user1 ≠ u → o.user2 ≠ u → dismiss_overlap o u = (false, o)) := by
  refine ⟨?_, ?_, ?_⟩
  · intro h1
    simp [dismiss_overlap, h1]
  · intro h2
    have h1 : o.user1 ≠ u := fun h => hdistinct (h.trans h2.symm)
    simp [dismiss_overlap, h1, h2]
  · intro h1 h2
    simp [dismiss_overlap, h1, h2]

/-- Closed instance of claim C8 on a concrete overlap: each party dismisses
its own side, a third user is rejected without mutation. -/
theorem dismiss_overlap_witness :
    dismiss_overlap ovFixture 1 = (true, { ovFixture with user1_dismissed := true }) ∧
    dismiss_overlap ovFixture 2 = (true, { ovFixture with user2_dismissed := true }) ∧
    dismiss_overlap ovFixture 3 = (false, ovFixture) :=
  ⟨(dismiss_overlap_spec ovFixture 1 (by decide)).1 (by decide),
   (dismiss_overlap_spec ovFixture 2 (by decide)).2.1 (by decide),
   (dismiss_overlap_spec ovFixture 3 (by decide)).2.2 (by decide) (by decide)⟩

/-- Claim C7: `cleanup_expired_overlaps` deletes exactly the overlaps with
`overlap_end + 30 days < today`, returns their count, keeps every
non-expired overlap, and a second immediate run deletes nothing. -/
theorem cleanup_expired_overlaps_spec (w : World) (today : Int) :
    (cleanup_expired_overlaps w today).1 =
      (w.overlaps.filter (fun o => decide (o.overlap_end_date + 30 < today))).length ∧
    (cleanup_expired_overlaps w today).2.overlaps =
      w.overlaps.filter (fun o => ! decide (o.overlap_end_date + 30 < today)) ∧
    (∀ o ∈ w.overlaps, today ≤ o.overlap_end_date + 30 →
      o ∈ (cleanup_expired_overlaps w today).2.overlaps) ∧
    (cleanup_expired_overlaps (cleanup_expired_overlaps w today).2 today).1 = 0 := by
  have hpt : ∀ o : Overlap,
      decide (o.overlap_end_date < today - 30) =
      decide (o.overlap_end_date + 30 < today) := by
    intro o
    rw [decide_eq_decide]
    omega
  refine ⟨?_, ?_, ?_, ?_⟩
  · simp only [cleanup_expired_overlaps]
    exact congrArg List.length (List.filter_congr (fun o _ => hpt o))
  · simp only [cleanup_expired_overlaps]
    exact List.filter_congr (fun o _ => by rw [hpt o])
  · intro o hmem hfresh
    simp only [cleanup_expired_overlaps]
    rw [List.mem_filter]
    refine ⟨hmem, ?_⟩
    simp only [Bool.not_eq_true', decide_eq_false_iff_not]
    omega
  · simp only [cleanup_expired_overlaps, List.filter_filter]
    rw [List.length_eq_zero, List.filter_eq_nil_iff]
    intro o _
    simp

/-- Closed instance of claim C7 on a concrete world: one expired overlap is
deleted, the fresh one kept, and the second run deletes nothing. -/
theorem cleanup_expired_overlaps_witness :
    (cleanup_expired_overlaps worldCleanup 100).1 =
      (worldCleanup.overlaps.filter
        (fun o => decide (o.overlap_end_date + 30 < 100))).length ∧
    (cleanup_expired_overlaps (cleanup_expired_overlaps worldCleanup 100).2 100).1 = 0 :=
  ⟨(cleanup_expired_overlaps_spec worldCleanup 100).1,
   (cleanup_expired_overlaps_spec worldCleanup 100).2.2.2⟩

/-- Claim C9 (code bug): `detect_cross_path` never returns a boolean at all.
Its first statement reads `user.home_latitude`, an attribute the `User`
model does not declare (the fields are `home_lat` / `home_lng`), so every
call raises AttributeError before any coordinate or distance logic runs,
whatever the remainder of the function would compute. -/
theorem detect_cross_path_always_raises
    (rest : Option ℚ → Option ℚ → Trip → Except String Bool)
    (user : User) (trip : Trip) :
    detect_cross_path rest user trip =
      Except.error "AttributeError: home_latitude" := rfl

theorem mem_insertDesc {r a : MatchResult} {l : List MatchResult} :
    a ∈ insertDesc r l ↔ a = r ∨ a ∈ l := by
  induction l with
  | nil => simp [insertDesc]
  | cons x xs ih =>
    simp only [insertDesc]
    split
    · simp [List.mem_cons]
    · simp only [List.mem_cons, ih]
      tauto

theorem mem_sortDesc {a : MatchResult} {l : List MatchResult} :
    a ∈ sortDesc l ↔ a ∈ l := by
  induction l with
  | nil => simp [sortDesc]
  | cons x xs ih =>
    simp only [sortDesc, mem_insertDesc, List.mem_cons, ih]

theorem pairwise_insertDesc (r : MatchResult) (l : List MatchResult)
    (h : l.Pairwise (fun x y => y.match_score ≤ x.match_score)) :
    (insertDesc r l).Pairwise (fun x y => y.match_score ≤ x.match_score) := by
  induction l with
  | nil => simp [insertDesc]
  | cons x xs ih =>
    rw [List.pairwise_cons] at h
    obtain ⟨hx, hxs⟩ := h
    simp only [insertDesc]
    split
    · next hlt =>
      rw [List.pairwise_cons]
      refine ⟨?_, List.pairwise_cons.mpr ⟨hx, hxs⟩⟩
      intro y hy
      rcases List.mem_cons.mp hy with rfl | hy'
      · exact le_of_lt hlt
      · exact le_trans (hx y hy') (le_of_lt hlt)
    · next hge =>
      rw [List.pairwise_cons]
      refine ⟨?_, ih hxs⟩
      intro y hy
      rcases mem_insertDesc.mp hy with rfl | hy'
      · exact le_of_not_lt hge
      · exact hx y hy'

theorem pairwise_sortDesc (l : List MatchResult) :
    (sortDesc l).Pairwise (fun x y => y.match_score ≤ x.match_score) := by
  induction l with
  | nil => simp [sortDesc]
  | cons x xs ih => exact pairwise_insertDesc x (sortDesc xs) ih

theorem mem_scored_matches {w : World} {user : User} {trip : Trip}
    {r : MatchResult} (hr : r ∈ scored_matches w user trip) :
    r.user ∈ get_candidates w user trip ∧ 20 < r.match_score := by
  rcases List.mem_filterMap.mp hr with ⟨c, hc, hf⟩
  rcases hct : get_candidate_trip w trip c with _ | ct
  · rw [hct] at hf
    exact absurd hf (by simp)
  · rw [hct] at hf
    dsimp only at hf
    by_cases hs : (calculate_match_score user trip c ct).1 > 20
    · rw [if_pos hs] at hf
      cases hf
      exact ⟨hc, hs⟩
    · rw [if_neg hs] at hf
      exact absurd hf (by simp)

theorem mem_get_matches {w : World} {user : User} {trip : Trip} {limit : Nat}
    {r : MatchResult} (hr : r ∈ get_matches w user trip limit) :
    r.user ∈ get_candidates w user trip ∧ 20 < r.match_score :=
  mem_scored_matches (mem_sortDesc.mp (List.mem_of_mem_take hr))

theorem get_candidates_visible {w : World} {user : User} {trip : Trip}
    {c : User} (hc : c ∈ get_candidates w user trip) :
    c ∈ visible_to w (some user) :=
  (List.mem_filter.mp (List.mem_filter.mp hc).1).1

theorem visible_to_no_block {w : World} {v c : User}
    (h : c ∈ visible_to w (some v)) (b : Block) (hb : b ∈ w.blocks) :
    ¬(b.blocker = v.id ∧ b.blocked = c.id) ∧
    ¬(b.blocker = c.id ∧ b.blocked = v.id) := by
  simp only [visible_to, List.mem_filter] at h
  obtain ⟨⟨hmem, hnb⟩, hvis⟩ := h
  rw [Bool.not_eq_true'] at hnb
  have hpred := List.any_eq_false.mp hnb b hb
  simp only [Bool.or_eq_true, Bool.and_eq_true, beq_iff_eq, not_or] at hpred
  exact ⟨fun hc => hpred.1 ⟨hc.1, hc.2⟩, fun hc => hpred.2 ⟨hc.1, hc.2⟩⟩

/-- Claim C2: a block edge between two users, in either role, removes each
from the match results of the other, for every trip and limit. -/
theorem get_matches_block_bilateral (w : World) (a b : User) (trip : Trip)
    (limit : Nat) (blk : Block) (hmem : blk ∈ w.blocks)
    (hab : (blk.blocker = a.id ∧ blk.blocked = b.id) ∨
           (blk.blocker = b.id ∧ blk.blocked = a.id)) :
    (∀ r ∈ get_matches w b trip limit, r.user.id ≠ a.id) ∧
    (∀ r ∈ get_matches w a trip limit, r.user.id ≠ b.id) := by
  constructor
  · intro r hr heq
    have hnb := visible_to_no_block
      (get_candidates_visible (mem_get_matches hr).1) blk hmem
    rcases hab with ⟨h1, h2⟩ | ⟨h1, h2⟩
    · exact hnb.2 ⟨h1.trans heq.symm, h2⟩
    · exact hnb.1 ⟨h1, h2.trans heq.symm⟩
  · intro r hr heq
    have hnb := visible_to_no_block
      (get_candidates_visible (mem_get_matches hr).1) blk hmem
    rcases hab with ⟨h1, h2⟩ | ⟨h1, h2⟩
    · exact hnb.1 ⟨h1, h2.trans heq.symm⟩
    · exact hnb.2 ⟨h1.trans heq.symm, h2⟩

/-- Closed instance of claim C2 on a concrete world with the block edge
1 → 2: neither user surfaces in the match list of the other. -/
theorem get_matches_block_witness :
    ((get_matches worldBlocked userB tripB 5).all
      (fun r => r.user.id != userA.id)) = true ∧
    ((get_matches worldBlocked userA tripA 5).all
      (fun r => r.user.id != userB.id)) = true := by
  constructor
  · rw [List.all_eq_true]
    intro r hr
    simpa using (get_matches_block_bilateral worldBlocked userA userB tripB 5
      ⟨1, 2⟩ (by decide) (Or.inl (by decide))).1 r hr
  · rw [List.all_eq_true]
    intro r hr
    simpa using (get_matches_block_bilateral worldBlocked userA userB tripA 5
      ⟨1, 2⟩ (by decide) (Or.inl (by decide))).2 r hr

/-- Claim C3: `get_matches` returns at most `limit` results, every result
scores strictly above 20, and the list is ordered by descending score. -/
theorem get_matches_sorted_bounded (w : World) (user : User) (trip : Trip)
    (limit : Nat) :
    (get_matches w user trip limit).length ≤ limit ∧
    (∀ r ∈ get_matches w user trip limit, 20 < r.match_score) ∧
    (get_matches w user trip limit).Pairwise
      (fun x y => y.match_score ≤ x.match_score) := by
  refine ⟨List.length_take_le limit _, ?_, ?_⟩
  · intro r hr
    exact (mem_get_matches hr).2
  · exact (pairwise_sortDesc (scored_matches w user trip)).sublist
      (List.take_sublist limit _)

/-- Closed instance of claim C3 on a concrete world: at most one result,
all results above threshold, descending order. -/
theorem get_matches_sorted_bounded_witness :
    (get_matches worldAB userA tripA 1).length ≤ 1 ∧
    ((get_matches worldAB userA tripA 1).all
      (fun r => decide (20 < r.match_score))) = true ∧
    (get_matches worldAB userA tripA 1).Pairwise
      (fun x y => y.match_score ≤ x.match_score) := by
  refine ⟨(get_matches_sorted_bounded worldAB userA tripA 1).1, ?_,
    (get_matches_sorted_bounded worldAB userA tripA 1).2.2⟩
  rw [List.all_eq_true]
  intro r hr
  simpa using (get_matches_sorted_bounded worldAB userA tripA 1).2.1 r hr

theorem overlapDaysScore_bounds (t1 t2 : Trip)
    (h : max t1.start_date t2.start_date ≤ min t1.end_date t2.end_date) :
    0 ≤ overlapDaysScore t1 t2 ∧ overlapDaysScore t1 t2 ≤ 30 := by
  simp only [overlapDaysScore, POINTS_PER_DAY, MAX_DAYS_SCORE]
  omega

theorem overlapDisciplineScore_le (t1 t2 : Trip) :
    overlapDisciplineScore t1 t2 ≤ 25 := by
  simp only [overlapDisciplineScore, DISCIPLINE_SCORE]
  split
  · split
    · split
      · exact Nat.div_le_of_le_mul'
          (Nat.mul_le_mul_right 25 (Finset.card_le_card Finset.inter_subset_union))
      · exact Nat.zero_le _
    · exact Nat.zero_le _
  · exact Nat.zero_le _

theorem overlapGradeScore_bounds (t1 t2 : Trip) :
    0 ≤ overlapGradeScore t1 t2 ∧ overlapGradeScore t1 t2 ≤ 20 := by
  simp only [overlapGradeScore, GRADE_SCORE]
  split
  · split <;> omega
  · omega

theorem overlapCragScore_bounds (t1 t2 : Trip) :
    0 ≤ overlapCragScore t1 t2 ∧ overlapCragScore t1 t2 ≤ 10 := by
  simp only [overlapCragScore, CRAG_BONUS]
  split
  · split <;> omega
  · omega

theorem calculate_overlap_score_bounds (t1 t2 : Trip) (f : Bool)
    (h : max t1.start_date t2.start_date ≤ min t1.end_date t2.end_date) :
    0 ≤ calculate_overlap_score t1 t2 f ∧ calculate_overlap_score t1 t2 f ≤ 100 := by
  have hd := overlapDaysScore_bounds t1 t2 h
  have hdisc : ((overlapDisciplineScore t1 t2 : Int)) ≤ 25 := by
    exact_mod_cast overlapDisciplineScore_le t1 t2
  have hdisc0 : (0 : Int) ≤ (overlapDisciplineScore t1 t2 : Int) :=
    Int.natCast_nonneg _
  have hg := overlapGradeScore_bounds t1 t2
  have hc := overlapCragScore_bounds t1 t2
  simp only [calculate_overlap_score, FRIENDSHIP_SCORE]
  cases f <;> simp only [if_true, if_false, Bool.false_eq_true, ite_true, ite_false] <;> omega

theorem score_location_bounds (t ct : Trip) (h : t.destination = ct.destination) :
    20 ≤ score_location t ct ∧ score_location t ct ≤ 30 := by
  simp only [score_location]
  rw [if_neg (fun hne => hne h)]
  split
  · omega
  · split <;> omega

theorem score_date_overlap_bounds (t ct : Trip)
    (h : max t.start_date ct.start_date ≤ min t.end_date ct.end_date) :
    4 ≤ (score_date_overlap t ct).1 ∧ (score_date_overlap t ct).1 ≤ 20 := by
  simp only [score_date_overlap]
  split
  · next hgt => dsimp only; omega
  · dsimp only; omega

theorem score_discipline_fst_bounds (u c : User) (t ct : Trip) :
    0 ≤ (score_discipline u c t ct).1 ∧ (score_discipline u c t ct).1 ≤ 20 := by
  simp only [score_discipline]
  split
  · dsimp only; omega
  · split <;> dsimp only <;> omega

theorem score_grade_compatibility_bounds (u c : User) (shared : List String) :
    0 ≤ score_grade_compatibility u c shared ∧
    score_grade_compatibility u c shared ≤ 15 := by
  cases shared with
  | nil => simp [score_grade_compatibility]
  | cons d rest =>
    simp only [score_grade_compatibility]
    cases hmp : getProfile u d with
    | none => simp
    | some mp =>
      cases htp : getProfile c d with
      | none => simp
      | some tp =>
        dsimp only
        split
        · omega
        · next hle =>
          constructor
          · exact Int.natCast_nonneg _
          · have hdiv : 30 * (min mp.comfortable_grade_max_score tp.comfortable_grade_max_score -
                max mp.comfortable_grade_min_score tp.comfortable_grade_min_score) /
                ((mp.comfortable_grade_max_score - mp.comfortable_grade_min_score) +
                 (tp.comfortable_grade_max_score - tp.comfortable_grade_min_score)) ≤ 15 :=
              Nat.div_le_of_le_mul' (by omega)
            exact_mod_cast hdiv

theorem score_risk_tolerance_bounds (u c : User) :
    -10 ≤ score_risk_tolerance u c ∧ score_risk_tolerance u c ≤ 10 := by
  simp only [score_risk_tolerance]
  split
  · omega
  · split <;> omega

theorem score_availability_bounds (t ct : Trip) :
    0 ≤ score_availability t ct ∧ score_availability t ct ≤ 5 := by
  simp only [score_availability]
  omega

theorem calculate_match_score_bounds (u c : User) (t ct : Trip)
    (hdest : t.destination = ct.destination)
    (hint : max t.start_date ct.start_date ≤ min t.end_date ct.end_date) :
    0 ≤ (calculate_match_score u t c ct).1 ∧
    (calculate_match_score u t c ct).1 ≤ 100 := by
  have hl := score_location_bounds t ct hdest
  have hd := score_date_overlap_bounds t ct hint
  have hdisc := score_discipline_fst_bounds u c t ct
  have hg := score_grade_compatibility_bounds u c (score_discipline u c t ct).2
  have hr := score_risk_tolerance_bounds u c
  have ha := score_availability_bounds t ct
  simp only [calculate_match_score]
  omega

/-- Counterexample to claim C1 as stated: a pair of individually valid
trips with disjoint date ranges gets a strictly negative OverlapScorer
score (the day component has no lower guard), so the score does not lie
in [0, 100] for every valid trip pair. -/
theorem overlap_score_out_of_range :
    tripA.start_date ≤ tripA.end_date ∧
    tripFar.start_date ≤ tripFar.end_date ∧
    calculate_overlap_score tripA tripFar false < 0 := by decide

/-- Claim C1 as amended: for valid trip pairs at the same destination whose
date ranges intersect (the only pairs the two scorers are invoked on),
the OverlapScorer score, for either friendship flag, and the MatchScorer
total, for any two users, lie in [0, 100]. -/
theorem scores_in_range_on_overlapping_pairs (u c : User) (t1 t2 : Trip)
    (f : Bool)
    (_hv1 : t1.start_date ≤ t1.end_date) (_hv2 : t2.start_date ≤ t2.end_date)
    (hint : max t1.start_date t2.start_date ≤ min t1.end_date t2.end_date)
    (hdest : t1.destination = t2.destination) :
    (0 ≤ calculate_overlap_score t1 t2 f ∧
      calculate_overlap_score t1 t2 f ≤ 100) ∧
    (0 ≤ (calculate_match_score u t1 c t2).1 ∧
      (calculate_match_score u t1 c t2).1 ≤ 100) :=
  ⟨calculate_overlap_score_bounds t1 t2 f hint,
   calculate_match_score_bounds u c t1 t2 hdest hint⟩

/-- Closed instance of the amended claim C1 at a concrete overlapping pair. -/
theorem scores_in_range_witness :
    (0 ≤ calculate_overlap_score tripA tripB true ∧
      calculate_overlap_score tripA tripB true ≤ 100) ∧
    (0 ≤ (calculate_match_score userA tripA userB tripB).1 ∧
      (calculate_match_score userA tripA userB tripB).1 ≤ 100) :=
  scores_in_range_on_overlapping_pairs userA userB tripA tripB true
    (by decide) (by decide) (by decide) (by decide)

/-- Counterexample to claim C5 as stated: with comfortable ranges [0, 1]
and [0, 3] for the one shared discipline, the exact value of
`15 * overlapRange / averageRange` is `15 * 1 / 2 = 7.5`; the code
truncates to 7 while the claimed `round` gives 8. -/
theorem grade_component_not_rounded :
    score_grade_compatibility userP userQ ["sport"] = 7 ∧
    round ((15 : ℚ) * 1 / ((1 + 3) / 2)) = 8 ∧ (7 : ℤ) ≠ 8 := by
  refine ⟨by decide, ?_, by decide⟩
  norm_num [round_eq]

/-- Claim C5 as amended: the grade component for the first shared
discipline is the floor (Python `int` truncation, not `round`) of
`15 * overlapRange / averageRange` over the two comfortable ranges, and 0
when the ranges are disjoint or when `averageRange` is 0. -/
theorem grade_component_floor_formula (u c : User) (d : String)
    (rest : List String) (mp tp : DisciplineProfile)
    (hmp : getProfile u d = some mp) (htp : getProfile c d = some tp)
    (_hv1 : mp.comfortable_grade_min_score ≤ mp.comfortable_grade_max_score)
    (_hv2 : tp.comfortable_grade_min_score ≤ tp.comfortable_grade_max_score) :
    (min mp.comfortable_grade_max_score tp.comfortable_grade_max_score <
       max mp.comfortable_grade_min_score tp.comfortable_grade_min_score →
      score_grade_compatibility u c (d :: rest) = 0) ∧
    ((mp.comfortable_grade_max_score - mp.comfortable_grade_min_score) +
       (tp.comfortable_grade_max_score - tp.comfortable_grade_min_score) = 0 →
      score_grade_compatibility u c (d :: rest) = 0) ∧
    (max mp.comfortable_grade_min_score tp.comfortable_grade_min_score ≤
       min mp.comfortable_grade_max_score tp.comfortable_grade_max_score →
      score_grade_compatibility u c (d :: rest) =
        ⌊(15 * (((min mp.comfortable_grade_max_score tp.comfortable_grade_max_score : ℕ) : ℚ) -
            ((max mp.comfortable_grade_min_score tp.comfortable_grade_min_score : ℕ) : ℚ))) /
          ((((mp.comfortable_grade_max_score - mp.comfortable_grade_min_score : ℕ) : ℚ) +
            ((tp.comfortable_grade_max_score - tp.comfortable_grade_min_score : ℕ) : ℚ)) / 2)⌋) := by
  have hred : score_grade_compatibility u c (d :: rest) =
      (if min mp.comfortable_grade_max_score tp.comfortable_grade_max_score <
          max mp.comfortable_grade_min_score tp.comfortable_grade_min_score then (0 : ℤ)
       else ((30 * (min mp.comfortable_grade_max_score tp.comfortable_grade_max_score -
          max mp.comfortable_grade_min_score tp.comfortable_grade_min_score) /
          ((mp.comfortable_grade_max_score - mp.comfortable_grade_min_score) +
           (tp.comfortable_grade_max_score - tp.comfortable_grade_min_score)) : ℕ) : ℤ)) := by
    simp only [score_grade_compatibility, hmp, htp]
  refine ⟨?_, ?_, ?_⟩
  · intro hlt
    rw [hred, if_pos hlt]
  · intro hw
    rw [hred]
    split
    · rfl
    · rw [hw]
      simp
  · intro hle
    rw [hred, if_neg (not_lt.mpr hle)]
    by_cases hw : (mp.comfortable_grade_max_score - mp.comfortable_grade_min_score) +
        (tp.comfortable_grade_max_score - tp.comfortable_grade_min_score) = 0
    · have h1 : mp.comfortable_grade_max_score - mp.comfortable_grade_min_score = 0 := by omega
      have h2 : tp.comfortable_grade_max_score - tp.comfortable_grade_min_score = 0 := by omega
      rw [hw, h1, h2]
      simp
    · have hcast : ((min mp.comfortable_grade_max_score tp.comfortable_grade_max_score : ℕ) : ℚ) -
          ((max mp.comfortable_grade_min_score tp.comfortable_grade_min_score : ℕ) : ℚ) =
          ((min mp.comfortable_grade_max_score tp.comfortable_grade_max_score -
            max mp.comfortable_grade_min_score tp.comfortable_grade_min_score : ℕ) : ℚ) :=
        (Nat.cast_sub hle).symm
      rw [hcast]
      have hwQ : (((mp.comfortable_grade_max_score - mp.comfortable_grade_min_score : ℕ) : ℚ) +
          ((tp.comfortable_grade_max_score - tp.comfortable_grade_min_score : ℕ) : ℚ)) ≠ 0 := by
        rw [← Nat.cast_add]
        exact_mod_cast hw
      have hkey : (15 * ((min mp.comfortable_grade_max_score tp.comfortable_grade_max_score -
            max mp.comfortable_grade_min_score tp.comfortable_grade_min_score : ℕ) : ℚ)) /
          ((((mp.comfortable_grade_max_score - mp.comfortable_grade_min_score : ℕ) : ℚ) +
            ((tp.comfortable_grade_max_score - tp.comfortable_grade_min_score : ℕ) : ℚ)) / 2) =
          ((30 * (min mp.comfortable_grade_max_score tp.comfortable_grade_max_score -
            max mp.comfortable_grade_min_score tp.comfortable_grade_min_score) : ℕ) : ℚ) /
          (((mp.comfortable_grade_max_score - mp.comfortable_grade_min_score) +
            (tp.comfortable_grade_max_score - tp.comfortable_grade_min_score) : ℕ) : ℚ) := by
        push_cast
        field_simp
        ring
      rw [hkey]
      rw [← Int.natCast_floor_eq_floor (div_nonneg (Nat.cast_nonneg _) (Nat.cast_nonneg _))]
      rw [Nat.floor_div_eq_div]

/-- Closed instance of the amended claim C5: the concrete component value
7 equals the floor of 7.5. -/
theorem grade_component_floor_witness :
    score_grade_compatibility userP userQ ["sport"] =
      ⌊(15 * (((min 1 3 : ℕ) : ℚ) - ((max 0 0 : ℕ) : ℚ))) /
        ((((1 - 0 : ℕ) : ℚ) + ((3 - 0 : ℕ) : ℚ)) / 2)⌋ :=
  (grade_component_floor_formula userP userQ "sport" [] ⟨"sport", 0, 1⟩
    ⟨"sport", 0, 3⟩ rfl rfl (by decide) (by decide)).2.2 (by decide)

theorem existsPair_append (l l' : List Overlap) (a b : Nat) :
    existsPair (l ++ l') a b = (existsPair l a b || existsPair l' a b) :=
  List.any_append

theorem detectStep_inv {base : List Overlap} {acc : List Overlap × List Overlap}
    (h : DetectInv base acc) (u : User) (fids : List Nat) (t other : Trip) :
    DetectInv base (detectStep u fids t acc other) := by
  obtain ⟨heq, hnew⟩ := h
  simp only [detectStep]
  split
  · exact ⟨heq, hnew⟩
  · next hnot =>
    refine ⟨by rw [heq, List.append_assoc], ?_⟩
    intro o ho
    rcases List.mem_append.mp ho with ho' | ho'
    · exact hnew o ho'
    · rw [List.mem_singleton] at ho'
      subst ho'
      have hfalse : existsPair acc.1 t.id other.id = false :=
        Bool.not_eq_true _ ▸ eq_false_of_ne_true hnot
      rw [heq, existsPair_append] at hfalse
      exact (Bool.or_eq_false_iff.mp hfalse).1

theorem foldl_detectStep_inv (u : User) (fids : List Nat) (t : Trip)
    (l : List Trip) {base : List Overlap} (acc : List Overlap × List Overlap)
    (h : DetectInv base acc) :
    DetectInv base (l.foldl (detectStep u fids t) acc) := by
  induction l generalizing acc with
  | nil => exact h
  | cons x xs ih => exact ih _ (detectStep_inv h u fids t x)

theorem foldl_nested_inv (u : User) (fids : List Nat) (others : List Trip)
    (uts : List Trip) {base : List Overlap} (acc : List Overlap × List Overlap)
    (h : DetectInv base acc) :
    DetectInv base (uts.foldl
      (fun acc ut => (matchingTripsQuery others ut).foldl (detectStep u fids ut) acc)
      acc) := by
  induction uts generalizing acc with
  | nil => exact h
  | cons y ys ih =>
    exact ih _ (foldl_detectStep_inv u fids y (matchingTripsQuery others y) acc h)

theorem foldl_detectStep_mono (u : User) (fids : List Nat) (t : Trip)
    (l : List Trip) (acc : List Overlap × List Overlap) (a b : Nat)
    (h : existsPair acc.1 a b = true) :
    existsPair ((l.foldl (detectStep u fids t) acc).1) a b = true := by
  induction l generalizing acc with
  | nil => exact h
  | cons x xs ih =>
    apply ih
    simp only [detectStep]
    split
    · exact h
    · rw [existsPair_append, h, Bool.true_or]

theorem foldl_detectStep_complete (u : User) (fids : List Nat) (t : Trip)
    (l : List Trip) (acc : List Overlap × List Overlap) :
    ∀ x ∈ l, existsPair ((l.foldl (detectStep u fids t) acc).1) t.id x.id = true := by
  induction l generalizing acc with
  | nil => intro x hx; cases hx
  | cons y ys ih =>
    intro x hx
    rcases List.mem_cons.mp hx with rfl | hx'
    · rw [List.foldl_cons]
      apply foldl_detectStep_mono
      simp only [detectStep]
      split
      · next hex => exact hex
      · rw [existsPair_append]
        have hsingle : existsPair [mkOverlap u t x (fids.contains x.userId)]
            t.id x.id = true := by
          simp [existsPair, mkOverlap]
        rw [hsingle, Bool.or_true]
    · exact ih _ x hx'

theorem foldl_detectStep_skip (u : User) (fids : List Nat) (t : Trip)
    (l : List Trip) (acc : List Overlap × List Overlap)
    (h : ∀ x ∈ l, existsPair acc.1 t.id x.id = true) :
    l.foldl (detectStep u fids t) acc = acc := by
  induction l with
  | nil => rfl
  | cons y ys ih =>
    rw [List.foldl_cons,
      show detectStep u fids t acc y = acc from by
        simp only [detectStep]
        rw [if_pos (h y (List.mem_cons_self y ys))]]
    exact ih (fun x hx => h x (List.mem_cons_of_mem y hx))

theorem get_friends_overlaps_irrel (w : World) (x : List Overlap) (u : User) :
    get_friends { w with overlaps := x } u = get_friends w u := rfl

theorem otherTripsForTripQuery_overlaps_irrel (w : World) (x : List Overlap)
    (u : User) (t : Trip) (d : Int) :
    otherTripsForTripQuery { w with overlaps := x } u t d =
    otherTripsForTripQuery w u t d := rfl

theorem detect_overlaps_for_trip_main (w : World) (user : User) (trip : Trip)
    (today : Int) (h1 : trip.is_active = true)
    (h2 : ¬ trip.visibility_status = "full_private")
    (h3 : ¬ trip.end_date < today) :
    detect_overlaps_for_trip w user trip today =
      ({ w with overlaps := ((otherTripsForTripQuery w user trip today).foldl
          (detectStep user ((get_friends w user).map (fun u => u.id)) trip)
          (w.overlaps, [])).1 },
       ((otherTripsForTripQuery w user trip today).foldl
          (detectStep user ((get_friends w user).map (fun u => u.id)) trip)
          (w.overlaps, [])).2) := by
  simp only [detect_overlaps_for_trip]
  rw [if_neg (not_not_intro h1), if_neg h2, if_neg h3]

/-- Claim C4: neither detection entry point ever inserts an overlap for a
trip pair already recorded in either orientation, and re-running
`detect_overlaps_for_trip` on the world produced by a first run creates
zero new overlaps. -/
theorem detection_dedupes_and_is_idempotent (w : World) (user : User)
    (trip : Trip) (today : Int) :
    (∀ o ∈ (detect_overlaps_for_trip w user trip today).2,
      existsPair w.overlaps o.trip1 o.trip2 = false) ∧
    (∀ o ∈ (detect_overlaps_for_user w user today).2,
      existsPair w.overlaps o.trip1 o.trip2 = false) ∧
    (detect_overlaps_for_trip (detect_overlaps_for_trip w user trip today).1
      user trip today).2 = [] := by
  have hinv0 : DetectInv w.overlaps (w.overlaps, []) :=
    ⟨(List.append_nil _).symm, fun o ho => absurd ho (List.not_mem_nil o)⟩
  refine ⟨?_, ?_, ?_⟩
  · simp only [detect_overlaps_for_trip]
    split
    · intro o ho; cases ho
    · split
      · intro o ho; cases ho
      · split
        · intro o ho; cases ho
        · exact (foldl_detectStep_inv user _ trip _ _ hinv0).2
  · simp only [detect_overlaps_for_user]
    exact (foldl_nested_inv user _ _ _ _ hinv0).2
  · by_cases h1 : trip.is_active = true
    · by_cases h2 : trip.visibility_status = "full_private"
      · have hstop : detect_overlaps_for_trip w user trip today = (w, []) := by
          simp only [detect_overlaps_for_trip]
          rw [if_neg (not_not_intro h1), if_pos h2]
        simp only [hstop]
      · by_cases h3 : trip.end_date < today
        · have hstop : detect_overlaps_for_trip w user trip today = (w, []) := by
            simp only [detect_overlaps_for_trip]
            rw [if_neg (not_not_intro h1), if_neg h2, if_pos h3]
          simp only [hstop]
        · have hcomp := foldl_detectStep_complete user
            ((get_friends w user).map (fun u => u.id)) trip
            (otherTripsForTripQuery w user trip today) (w.overlaps, [])
          rw [detect_overlaps_for_trip_main w user trip today h1 h2 h3]
          generalize hR : ((otherTripsForTripQuery w user trip today).foldl
            (detectStep user ((get_friends w user).map (fun u => u.id)) trip)
            (w.overlaps, [])) = R at hcomp ⊢
          rw [detect_overlaps_for_trip_main _ user trip today h1 h2 h3]
          rw [otherTripsForTripQuery_overlaps_irrel, get_friends_overlaps_irrel]
          show ((otherTripsForTripQuery w user trip today).foldl
            (detectStep user ((get_friends w user).map (fun u => u.id)) trip)
            (R.1, [])).2 = []
          rw [foldl_detectStep_skip user
            ((get_friends w user).map (fun u => u.id)) trip
            (otherTripsForTripQuery w user trip today) (R.1, [])
            (fun x hx => hcomp x hx)]
    · have hstop : detect_overlaps_for_trip w user trip today = (w, []) := by
        simp only [detect_overlaps_for_trip]
        rw [if_pos h1]
      simp only [hstop]

/-- Closed instance of claim C4 on a concrete world: the first run creates
records only for unrecorded pairs and the immediate rerun creates
nothing. -/
theorem detection_idempotent_witness :
    ((detect_overlaps_for_trip worldAB userA tripA 0).2.all
      (fun o => ! existsPair worldAB.overlaps o.trip1 o.trip2)) = true ∧
    (detect_overlaps_for_trip (detect_overlaps_for_trip worldAB userA tripA 0).1
      userA tripA 0).2 = [] := by
  refine ⟨?_, (detection_dedupes_and_is_idempotent worldAB userA tripA 0).2.2⟩
  rw [List.all_eq_true]
  intro o ho
  have h := (detection_dedupes_and_is_idempotent worldAB userA tripA 0).1 o ho
  simp [h]

end SendBuddy
